import Mathlib

/-!
Shallow embedding of `gateway/src/forward.rs`: a payment-gated forwarding
gateway. The handler `forward_request_with_payment_with_body` resolves an
upstream configuration, acquires a payment token from a wallet, forwards
the request, relays the (possibly streamed) response, and absorbs refunds.

External collaborators (configuration store, wallet service, upstream HTTP
provider) are modelled by passing their per-request outcomes as inputs; the
handler returns the produced response together with a trace of wallet calls
and a flag recording whether the upstream send was performed.
-/

namespace Forward

/-- Minimal JSON values, enough for the error bodies built with `json!`. -/
inductive Json where
  | null : Json
  | str (s : String) : Json
  | obj (fields : List (String × Json)) : Json
deriving Repr

/-- Field lookup on a JSON object (`none` on non-objects or missing field). -/
def Json.getField : Json → String → Option Json
  | .obj fields, n => (fields.find? (fun p => p.1 == n)).map (fun p => p.2)
  | _, _ => none

/-- The server configuration returned by `get_server_config`. -/
structure ServerConfig where
  endpoint : String
  api_key : String

/-- Result payload of a successful `wallet.send` (field `token`). -/
structure WalletSendResponse where
  token : String

/-- Result payload of a successful `wallet.receive` (field `balance`). -/
structure WalletReceiveResponse where
  balance : String

/-- The wallet collaborator: `send` takes an amount, `receive` takes the
refund header value (its bytes, decoded as a visible-ASCII string). -/
structure CashuWalletClient where
  sendResult : Nat → Except String WalletSendResponse
  receiveResult : List Nat → Except String WalletReceiveResponse

/-- A header value is raw bytes; names are lowercase strings (as in
`http::HeaderMap`, where names are stored lowercased). -/
abbrev Headers := List (String × List Nat)

/-- An upstream HTTP response: status, headers, and the byte stream as a
list of chunk results (`Except` for a mid-stream read error). -/
structure UpstreamResponse where
  status : Nat
  headers : Headers
  chunks : List (Except String (List Nat))

/-- One recorded call to the wallet service. -/
inductive WalletCall where
  | send (amount : Nat) : WalletCall
  | receive (amount : List Nat) : WalletCall
deriving DecidableEq, Repr

/-- Outbound HTTP method chosen by the request builder. -/
inductive Method where
  | GET : Method
  | POST : Method
deriving DecidableEq, Repr

/-- The body of the response returned to the caller: a JSON error body, or
the relayed stream of chunk results. -/
inductive ResponseBody where
  | json (j : Json) : ResponseBody
  | stream (items : List (Except String (List Nat))) : ResponseBody
deriving Repr

/-- The response returned to the caller. -/
structure HttpResponse where
  status : Nat
  headers : Headers
  body : ResponseBody
deriving Repr

/-- Handler outcome: a response, or a panic (an `unwrap` failure). -/
inductive Outcome where
  | response (r : HttpResponse) : Outcome
  | panicked : Outcome
deriving Repr

/-- Handler result: the outcome plus an effect trace — the wallet calls in
order, whether the outbound HTTP send to upstream was performed, and the
method the request builder chose (`none` when it was never built). -/
structure GatewayResult where
  outcome : Outcome
  walletCalls : List WalletCall
  upstreamSent : Bool
  builtMethod : Option Method

/-- Bytes of an ASCII string literal. -/
def strBytes (s : String) : List Nat := s.data.map Char.toNat

/-- `http::HeaderValue::to_str` succeeds iff every byte is visible ASCII
(32–126) or horizontal tab. -/
def isVisibleAscii (b : Nat) : Bool := (32 ≤ b && b < 127) || b == 9

/-- `HeaderValue::to_str`: the decoded value (as its bytes) or `none`. -/
def headerValueToStr (bs : List Nat) : Option (List Nat) :=
  if bs.all isVisibleAscii then some bs else none

/-- `HeaderMap::get`: first value stored under a name. -/
def getHeader (hs : Headers) (n : String) : Option (List Nat) :=
  (hs.find? (fun p => p.1 == n)).map (fun p => p.2)

/-- `HeaderMap::insert`: all previous values under the name are removed and
the new value is associated with it. -/
def insertHeader (hs : Headers) (n : String) (v : List Nat) : Headers :=
  hs.filter (fun p => p.1 != n) ++ [(n, v)]

/-- The header-copy loop: every upstream header except `connection` and
`transfer-encoding` is `insert`ed into the outbound response headers. -/
def copyUpstreamHeaders (init : Headers) (upstream : Headers) : Headers :=
  upstream.foldl
    (fun acc p =>
      if p.1 ≠ "connection" ∧ p.1 ≠ "transfer-encoding" then
        insertHeader acc p.1 p.2
      else acc)
    init

/-- Capacity of the bounded mpsc channel between producer and consumer. -/
def channelCapacity : Nat := 100

/-- The spawned producer task: forwards each `Ok` chunk into the channel in
order; on the first `Err` it pushes one terminal error marker and breaks. -/
def producerItems : List (Except String (List Nat)) → List (Except String (List Nat))
  | [] => []
  | .ok c :: rest => .ok c :: producerItems rest
  | .error e :: _ => [.error ("Error reading from upstream: " ++ e)]

/-- Bytes actually delivered by the outbound body: the concatenation of the
chunks up to (excluding) a terminal error marker. -/
def deliveredBytes : List (Except String (List Nat)) → List Nat
  | [] => []
  | .ok c :: rest => c ++ deliveredBytes rest
  | .error _ :: _ => []

/-- Error body returned when the server configuration is missing. -/
def configMissingBody : Json :=
  .obj [("error", .obj
    [ ("message", .str "Server configuration missing. Cannot process request without a configured endpoint.")
    , ("type", .str "server_error")
    , ("param", .null)
    , ("code", .str "server_config_missing") ])]

/-- Error body returned when `wallet.send` fails. -/
def paymentErrorBody (e : String) : Json :=
  .obj [("error", .obj
    [ ("message", .str ("Failed to generate payment token: " ++ e))
    , ("type", .str "payment_error") ])]

/-- Error body returned when the outbound HTTP send fails. -/
def gatewayErrorBody (e : String) : Json :=
  .obj [("error", .obj
    [ ("message", .str ("Error forwarding request: " ++ e))
    , ("type", .str "gateway_error") ])]

/-- The core handler, mirroring `forward_request_with_payment_with_body`:

1. missing config → 400 with `configMissingBody`, no wallet call;
2. request builder: POST iff a body is present, GET otherwise;
3. `wallet.send(10, …)` → on error, 500 with `paymentErrorBody`, upstream
   never contacted;
4. outbound send → on network error, 500 with `gatewayErrorBody`;
5. on success: if streaming and upstream sent no `content-type`, inject
   `text/event-stream`; if upstream sent an `X-CHANGE-SATS` header, decode
   it with `to_str().unwrap()` (panic on non-visible-ASCII bytes) and call
   `wallet.receive` with it (its result is only logged); copy the upstream
   headers minus `connection`/`transfer-encoding`; relay the byte stream
   through the producer task and bounded channel. -/
def forward_request_with_payment_with_body
    (original_headers : Headers)
    (config : Option ServerConfig)
    (wallet : CashuWalletClient)
    (endpoint_fn : String → String)
    (body : Option Json)
    (is_streaming : Bool)
    (upstream : Except String UpstreamResponse) : GatewayResult :=
  match config with
  | none =>
    { outcome := .response { status := 400, headers := [], body := .json configMissingBody }
      walletCalls := []
      upstreamSent := false
      builtMethod := none }
  | some server_config =>
    let _endpoint_url := endpoint_fn server_config.endpoint
    let method : Method := if body.isSome then .POST else .GET
    match wallet.sendResult 10 with
    | .error e =>
      { outcome := .response { status := 500, headers := [], body := .json (paymentErrorBody e) }
        walletCalls := [.send 10]
        upstreamSent := false
        builtMethod := some method }
    | .ok _token =>
      let _accept := getHeader original_headers "accept"
      match upstream with
      | .error err =>
        { outcome := .response { status := 500, headers := [], body := .json (gatewayErrorBody err) }
          walletCalls := [.send 10]
          upstreamSent := true
          builtMethod := some method }
      | .ok resp =>
        let initHeaders : Headers :=
          if is_streaming ∧ getHeader resp.headers "content-type" = none then
            [("content-type", strBytes "text/event-stream")]
          else []
        match getHeader resp.headers "x-change-sats" with
        | some changeBytes =>
          match headerValueToStr changeBytes with
          | none =>
            { outcome := .panicked
              walletCalls := [.send 10]
              upstreamSent := true
              builtMethod := some method }
          | some changeStr =>
            let _recv := wallet.receiveResult changeStr
            { outcome := .response
                { status := resp.status
                  headers := copyUpstreamHeaders initHeaders resp.headers
                  body := .stream (producerItems resp.chunks) }
              walletCalls := [.send 10, .receive changeStr]
              upstreamSent := true
              builtMethod := some method }
        | none =>
          { outcome := .response
              { status := resp.status
                headers := copyUpstreamHeaders initHeaders resp.headers
                body := .stream (producerItems resp.chunks) }
            walletCalls := [.send 10]
            upstreamSent := true
            builtMethod := some method }

/-- `forward_request_with_payment`: the bodyless, non-streaming wrapper. -/
def forward_request_with_payment
    (original_headers : Headers)
    (config : Option ServerConfig)
    (wallet : CashuWalletClient)
    (endpoint_fn : String → String)
    (upstream : Except String UpstreamResponse) : GatewayResult :=
  forward_request_with_payment_with_body original_headers config wallet endpoint_fn
    none false upstream

/-- A chat-completion request: its optional `stream` flag and its payload. -/
structure ChatCompletionRequest where
  stream : Option Bool
  payload : Json

/-- `forward_chat_completions` entry point. -/
def forward_chat_completions
    (request : ChatCompletionRequest)
    (original_headers : Headers)
    (config : Option ServerConfig)
    (wallet : CashuWalletClient)
    (upstream : Except String UpstreamResponse) : GatewayResult :=
  forward_request_with_payment_with_body original_headers config wallet
    (fun base_endpoint => base_endpoint ++ "/v1/chat/completions")
    (some request.payload) (request.stream.getD false) upstream

/-- `forward_list_models` entry point. -/
def forward_list_models
    (original_headers : Headers)
    (config : Option ServerConfig)
    (wallet : CashuWalletClient)
    (upstream : Except String UpstreamResponse) : GatewayResult :=
  forward_request_with_payment original_headers config wallet
    (fun base_endpoint => base_endpoint ++ "/v1/models") upstream

/-- `forward_embeddings` entry point. -/
def forward_embeddings
    (request : Json)
    (original_headers : Headers)
    (config : Option ServerConfig)
    (wallet : CashuWalletClient)
    (upstream : Except String UpstreamResponse) : GatewayResult :=
  forward_request_with_payment_with_body original_headers config wallet
    (fun base_endpoint => base_endpoint ++ "/v1/embeddings")
    (some request) false upstream

/-- `forward_image_generations` entry point. -/
def forward_image_generations
    (request : Json)
    (original_headers : Headers)
    (config : Option ServerConfig)
    (wallet : CashuWalletClient)
    (upstream : Except String UpstreamResponse) : GatewayResult :=
  forward_request_with_payment_with_body original_headers config wallet
    (fun base_endpoint => base_endpoint ++ "/v1/images/generations")
    (some request) false upstream

/-- `get_specific_model` entry point. -/
def get_specific_model
    (model_id : String)
    (original_headers : Headers)
    (config : Option ServerConfig)
    (wallet : CashuWalletClient)
    (upstream : Except String UpstreamResponse) : GatewayResult :=
  forward_request_with_payment original_headers config wallet
    (fun endpoint => endpoint ++ "/v1/models/" ++ model_id) upstream

/-- Headers of the outcome's response (empty on panic). -/
def Outcome.responseHeaders : Outcome → Headers
  | .response r => r.headers
  | .panicked => []

/-- Status of the outcome's response. -/
def Outcome.responseStatus : Outcome → Option Nat
  | .response r => some r.status
  | .panicked => none

/-- The JSON body of the outcome's response, when it has one. -/
def Outcome.bodyJson : Outcome → Option Json
  | .response { body := .json j, .. } => some j
  | _ => none

/-- The relayed stream of the outcome's response, when it has one. -/
def Outcome.bodyStream : Outcome → Option (List (Except String (List Nat)))
  | .response { body := .stream items, .. } => some items
  | _ => none

/-- The amounts of the `receive` calls in a wallet-call trace, in order. -/
def receiveCalls (l : List WalletCall) : List (List Nat) :=
  l.filterMap (fun c => match c with | .receive a => some a | _ => none)

/-- The amounts of the `send` calls in a wallet-call trace, in order. -/
def sendCalls (l : List WalletCall) : List Nat :=
  l.filterMap (fun c => match c with | .send a => some a | _ => none)

/-- A concrete wallet whose `send` and `receive` both succeed. -/
def okWallet : CashuWalletClient :=
  { sendResult := fun _ => .ok { token := "tok" }
    receiveResult := fun _ => .ok { balance := "0" } }

/-- A concrete wallet whose `send` fails. -/
def errWallet : CashuWalletClient :=
  { sendResult := fun _ => .error "boom"
    receiveResult := fun _ => .ok { balance := "0" } }

/-- A concrete resolved server configuration. -/
def someConfig : Option ServerConfig :=
  some { endpoint := "http://up", api_key := "key" }

end Forward

namespace Forward

/-! ## Claims -/

/-- Claim C1: when the configuration lookup returns no configuration, the
handler returns status 400 with an error body whose `code` field is
`"server_config_missing"`, and the wallet `send` operation is never
invoked (the wallet-call trace is empty). -/
theorem C1_config_missing (original_headers : Headers) (wallet : CashuWalletClient)
    (endpoint_fn : String → String) (body : Option Json) (is_streaming : Bool)
    (upstream : Except String UpstreamResponse) :
    let r := forward_request_with_payment_with_body original_headers none wallet
      endpoint_fn body is_streaming upstream
    r.outcome.responseStatus = some 400 ∧
    r.outcome.bodyJson = some configMissingBody ∧
    (configMissingBody.getField "error").bind (fun j => j.getField "code")
      = some (.str "server_config_missing") ∧
    r.walletCalls = [] :=
  ⟨rfl, rfl, rfl, rfl⟩

/-- Claim C2: when configuration resolution succeeds but `wallet.send`
returns an error, the handler returns status 500 with an error body whose
`type` field is `"payment_error"`, and the outbound HTTP request to the
upstream provider is never sent. -/
theorem C2_payment_error (original_headers : Headers) (cfg : ServerConfig)
    (wallet : CashuWalletClient) (endpoint_fn : String → String)
    (body : Option Json) (is_streaming : Bool)
    (upstream : Except String UpstreamResponse) (e : String)
    (h : wallet.sendResult 10 = .error e) :
    let r := forward_request_with_payment_with_body original_headers (some cfg) wallet
      endpoint_fn body is_streaming upstream
    r.outcome.responseStatus = some 500 ∧
    r.outcome.bodyJson = some (paymentErrorBody e) ∧
    ((paymentErrorBody e).getField "error").bind (fun j => j.getField "type")
      = some (.str "payment_error") ∧
    r.upstreamSent = false := by
  simp only [forward_request_with_payment_with_body, h]
  exact ⟨rfl, rfl, rfl, trivial⟩

/-- Witness for C2 at a concrete input. -/
theorem C2_payment_error_witness :
    errWallet.sendResult 10 = .error "boom" ∧
    (let r := forward_request_with_payment_with_body []
        (some { endpoint := "http://up", api_key := "key" }) errWallet
        id none false (.error "net")
     r.outcome.responseStatus = some 500 ∧
     r.outcome.bodyJson = some (paymentErrorBody "boom") ∧
     ((paymentErrorBody "boom").getField "error").bind (fun j => j.getField "type")
       = some (.str "payment_error") ∧
     r.upstreamSent = false) :=
  ⟨rfl, C2_payment_error [] { endpoint := "http://up", api_key := "key" }
    errWallet id none false (.error "net") "boom" rfl⟩

/-- Claim C3, counterexample: the payment amount requested from the wallet
is the constant 10, not one unit — on a concrete forwarded call the wallet
trace is exactly `[send 10]`, no `send 1` call occurs, and `10 ≠ 1`. -/
theorem C3_counterexample :
    (forward_request_with_payment_with_body [] someConfig okWallet id none false
      (.ok { status := 200, headers := [], chunks := [] })).walletCalls
      = [.send 10] ∧
    WalletCall.send 1 ∉
      (forward_request_with_payment_with_body [] someConfig okWallet id none false
        (.ok { status := 200, headers := [], chunks := [] })).walletCalls ∧
    (10 : Nat) ≠ 1 := by
  refine ⟨rfl, ?_, ?_⟩ <;> decide

/-- Claim C3, amended: for every forwarded call, every `send` call the
handler makes to the wallet service requests the same fixed denomination,
namely 10 units, independent of the operation being forwarded and of its
actual cost. -/
theorem C3_fixed_denomination (original_headers : Headers)
    (config : Option ServerConfig) (wallet : CashuWalletClient)
    (endpoint_fn : String → String) (body : Option Json) (is_streaming : Bool)
    (upstream : Except String UpstreamResponse) (a : Nat)
    (h : WalletCall.send a ∈
      (forward_request_with_payment_with_body original_headers config wallet
        endpoint_fn body is_streaming upstream).walletCalls) :
    a = 10 := by
  rcases config with _ | cfg
  · simp [forward_request_with_payment_with_body] at h
  · simp only [forward_request_with_payment_with_body] at h
    split at h
    · simp at h
      exact h
    · split at h
      · simp at h
        exact h
      · split at h
        · split at h
          · simp at h
            exact h
          · simp at h
            exact h
        · simp at h
          exact h

/-- Witness for C3 at a concrete input. -/
theorem C3_fixed_denomination_witness :
    WalletCall.send 10 ∈
      (forward_request_with_payment_with_body [] someConfig okWallet id none false
        (.ok { status := 200, headers := [], chunks := [] })).walletCalls ∧
    (10 : Nat) = 10 :=
  ⟨by decide,
   C3_fixed_denomination [] someConfig okWallet id none false
     (.ok { status := 200, headers := [], chunks := [] }) 10 (by decide)⟩

/-- Claim C4, counterexample: on the payment-error path the error body has
no `param` field at all (the claim asserts every error body has
`param = null`): the body is `paymentErrorBody "boom"`, whose error object
has no `"param"` key. -/
theorem C4_counterexample :
    (forward_request_with_payment_with_body [] someConfig errWallet id none false
      (.error "net")).outcome.bodyJson = some (paymentErrorBody "boom") ∧
    ((paymentErrorBody "boom").getField "error").bind (fun o => o.getField "param")
      = none :=
  ⟨rfl, rfl⟩

/-- The amended shape invariant of the error bodies: every JSON error body
is the config-missing body, a payment-error body, or a gateway-error body;
the config-missing body carries `param = null` and
`code = "server_config_missing"`, while the payment- and gateway-error
bodies carry only `message` and `type` — neither `param` nor `code`. -/
def errorBodyInvariant (j : Json) : Prop :=
  (j = configMissingBody ∨ (∃ m, j = paymentErrorBody m) ∨ (∃ m, j = gatewayErrorBody m)) ∧
  ((configMissingBody.getField "error").bind (fun o => o.getField "param") = some .null ∧
   (configMissingBody.getField "error").bind (fun o => o.getField "code")
     = some (.str "server_config_missing")) ∧
  (∀ m, ((paymentErrorBody m).getField "error").bind (fun o => o.getField "param") = none ∧
        ((paymentErrorBody m).getField "error").bind (fun o => o.getField "code") = none) ∧
  (∀ m, ((gatewayErrorBody m).getField "error").bind (fun o => o.getField "param") = none ∧
        ((gatewayErrorBody m).getField "error").bind (fun o => o.getField "code") = none)

/-- Claim C4, amended: every JSON error body the handler produces satisfies
`errorBodyInvariant`: it is one of the three fixed shapes, only the
config-missing shape has a `param` (null) and a `code` field, and the
payment/gateway shapes have only `message` and `type`. -/
theorem C4_error_body_shape (original_headers : Headers)
    (config : Option ServerConfig) (wallet : CashuWalletClient)
    (endpoint_fn : String → String) (body : Option Json) (is_streaming : Bool)
    (upstream : Except String UpstreamResponse) (j : Json)
    (h : (forward_request_with_payment_with_body original_headers config wallet
        endpoint_fn body is_streaming upstream).outcome.bodyJson = some j) :
    errorBodyInvariant j := by
  refine ⟨?_, ⟨rfl, rfl⟩, fun m => ⟨rfl, rfl⟩, fun m => ⟨rfl, rfl⟩⟩
  rcases config with _ | cfg
  · simp only [forward_request_with_payment_with_body, Outcome.bodyJson,
      Option.some.injEq] at h
    exact Or.inl h.symm
  · simp only [forward_request_with_payment_with_body] at h
    split at h
    · simp only [Outcome.bodyJson, Option.some.injEq] at h
      exact Or.inr (Or.inl ⟨_, h.symm⟩)
    · split at h
      · simp only [Outcome.bodyJson, Option.some.injEq] at h
        exact Or.inr (Or.inr ⟨_, h.symm⟩)
      · split at h
        · split at h
          · simp [Outcome.bodyJson] at h
          · simp [Outcome.bodyJson] at h
        · simp [Outcome.bodyJson] at h

/-- Witness for C4 at a concrete input (the config-missing path). -/
theorem C4_error_body_shape_witness :
    (forward_request_with_payment_with_body [] none okWallet id none false
      (.ok { status := 200, headers := [], chunks := [] })).outcome.bodyJson
      = some configMissingBody ∧
    errorBodyInvariant configMissingBody :=
  ⟨rfl, C4_error_body_shape [] none okWallet id none false
    (.ok { status := 200, headers := [], chunks := [] }) configMissingBody rfl⟩

/-- The producer forwards an error-free chunk sequence unchanged. -/
theorem producerItems_map_ok (cs : List (List Nat)) :
    producerItems (cs.map Except.ok) = cs.map Except.ok := by
  induction cs with
  | nil => rfl
  | cons c cs ih => simp [producerItems, ih]

/-- The bytes delivered from an error-free chunk sequence are its
concatenation. -/
theorem deliveredBytes_map_ok (cs : List (List Nat)) :
    deliveredBytes (cs.map Except.ok) = cs.flatten := by
  induction cs with
  | nil => rfl
  | cons c cs ih => simp [deliveredBytes, ih]

/-- After `k` good chunks and a read error, the producer emits exactly the
`k` chunks followed by one terminal error marker, ignoring anything the
upstream stream would have yielded afterwards. -/
theorem producerItems_append_error (cs : List (List Nat)) (e : String)
    (rest : List (Except String (List Nat))) :
    producerItems (cs.map Except.ok ++ Except.error e :: rest)
      = cs.map Except.ok ++ [Except.error ("Error reading from upstream: " ++ e)] := by
  induction cs with
  | nil => rfl
  | cons c cs ih => simp [producerItems, ih]

/-- The bytes delivered before a terminal error marker are the
concatenation of the good chunks. -/
theorem deliveredBytes_append_error (cs : List (List Nat)) (e : String) :
    deliveredBytes (cs.map Except.ok ++ [Except.error e]) = cs.flatten := by
  induction cs with
  | nil => rfl
  | cons c cs ih => simp [deliveredBytes, ih]

/-- Claim C5, counterexample: an upstream response can produce its chunks
without any stream error (here the single chunk `[1]`) and yet deliver no
outbound body at all — when it also carries a refund-amount header with a
non-visible-ASCII value (byte 129), the handler panics before building the
response, so the outbound body is not the concatenation of the chunks. -/
theorem C5_counterexample :
    (forward_request_with_payment_with_body [] someConfig okWallet id none false
      (.ok { status := 200, headers := [("x-change-sats", [129])],
             chunks := [Except.ok [1]] })).outcome = .panicked ∧
    (forward_request_with_payment_with_body [] someConfig okWallet id none false
      (.ok { status := 200, headers := [("x-change-sats", [129])],
             chunks := [Except.ok [1]] })).outcome.bodyStream = none :=
  ⟨rfl, rfl⟩

/-- Claim C5, amended: for every finite sequence of chunks the upstream
stream produces without error — provided the upstream refund-amount
header, when present, has a visible-ASCII value (otherwise the handler
panics and no body is delivered) — the outbound body is exactly those
chunks in the same order, none reordered, dropped, duplicated or
introduced, the bytes delivered are their concatenation, and the
producer/consumer channel has capacity 100. -/
theorem C5_stream_order_preserving (cs : List (List Nat))
    (original_headers : Headers) (cfg : ServerConfig) (tok : String)
    (recv : List Nat → Except String WalletReceiveResponse)
    (endpoint_fn : String → String) (body : Option Json) (is_streaming : Bool)
    (st : Nat) (hs : Headers)
    (hch : ∀ bs, getHeader hs "x-change-sats" = some bs →
      bs.all isVisibleAscii = true) :
    let r := forward_request_with_payment_with_body original_headers (some cfg)
      { sendResult := fun _ => .ok { token := tok }, receiveResult := recv }
      endpoint_fn body is_streaming
      (.ok { status := st, headers := hs, chunks := cs.map Except.ok })
    r.outcome.bodyStream = some (cs.map Except.ok) ∧
    r.outcome.bodyStream.map deliveredBytes = some cs.flatten ∧
    channelCapacity = 100 := by
  rcases hg : getHeader hs "x-change-sats" with _ | bs
  · refine ⟨?_, ?_, rfl⟩ <;>
      simp [forward_request_with_payment_with_body, Outcome.bodyStream, hg,
        producerItems_map_ok, deliveredBytes_map_ok]
  · have hv := hch bs hg
    refine ⟨?_, ?_, rfl⟩ <;>
      simp [forward_request_with_payment_with_body, Outcome.bodyStream, hg,
        headerValueToStr, hv, producerItems_map_ok, deliveredBytes_map_ok]

/-- Witness for C5 at a concrete input that carries a decodable
refund-amount header. -/
theorem C5_stream_order_preserving_witness :
    (strBytes "7").all isVisibleAscii = true ∧
    (let r := forward_request_with_payment_with_body []
        (some { endpoint := "http://up", api_key := "key" })
        { sendResult := fun _ => .ok { token := "tok" },
          receiveResult := fun _ => .ok { balance := "0" } }
        id none false
        (.ok { status := 200, headers := [("x-change-sats", strBytes "7")],
               chunks := ([[1], [2], [3]] : List (List Nat)).map Except.ok })
     r.outcome.bodyStream = some (([[1], [2], [3]] : List (List Nat)).map Except.ok) ∧
     r.outcome.bodyStream.map deliveredBytes
       = some ([[1], [2], [3]] : List (List Nat)).flatten ∧
     channelCapacity = 100) :=
  ⟨rfl, C5_stream_order_preserving [[1], [2], [3]] []
    { endpoint := "http://up", api_key := "key" } "tok"
    (fun _ => .ok { balance := "0" }) id none false 200
    [("x-change-sats", strBytes "7")]
    (fun bs h => by
      have h' : some (strBytes "7") = some bs := h
      have h2 := Option.some.inj h'
      subst h2
      rfl)⟩

/-- Claim C6, counterexample: an upstream stream can yield one good chunk
and then a read error, and yet deliver no outbound body at all — when the
response also carries a refund-amount header with a non-visible-ASCII
value (byte 130), the handler panics before building the response, so the
outbound body is not the good chunks followed by a terminal marker. -/
theorem C6_counterexample :
    (forward_request_with_payment_with_body [] someConfig okWallet id none false
      (.ok { status := 200, headers := [("x-change-sats", [130])],
             chunks := [Except.ok [1], Except.error "reset"] })).outcome
      = .panicked ∧
    (forward_request_with_payment_with_body [] someConfig okWallet id none false
      (.ok { status := 200, headers := [("x-change-sats", [130])],
             chunks := [Except.ok [1], Except.error "reset"] })).outcome.bodyStream
      = none :=
  ⟨rfl, rfl⟩

/-- Claim C6, amended: if the upstream stream yields the chunks `cs` and
then a read error — provided the upstream refund-amount header, when
present, has a visible-ASCII value (otherwise the handler panics and no
body is delivered) — the outbound body is exactly those chunks followed by
one terminal error marker that ends the stream, nothing after it, the
delivered bytes are the concatenation of the good chunks, and the
producer's output does not depend on anything the upstream would yield
past the error (it stops reading). -/
theorem C6_stream_error_truncates (cs : List (List Nat)) (e : String)
    (rest : List (Except String (List Nat)))
    (original_headers : Headers) (cfg : ServerConfig) (tok : String)
    (recv : List Nat → Except String WalletReceiveResponse)
    (endpoint_fn : String → String) (body : Option Json) (is_streaming : Bool)
    (st : Nat) (hs : Headers)
    (hch : ∀ bs, getHeader hs "x-change-sats" = some bs →
      bs.all isVisibleAscii = true) :
    let r := forward_request_with_payment_with_body original_headers (some cfg)
      { sendResult := fun _ => .ok { token := tok }, receiveResult := recv }
      endpoint_fn body is_streaming
      (.ok { status := st, headers := hs,
             chunks := cs.map Except.ok ++ Except.error e :: rest })
    r.outcome.bodyStream
      = some (cs.map Except.ok ++ [Except.error ("Error reading from upstream: " ++ e)]) ∧
    r.outcome.bodyStream.map deliveredBytes = some cs.flatten ∧
    producerItems (cs.map Except.ok ++ Except.error e :: rest)
      = producerItems (cs.map Except.ok ++ [Except.error e]) := by
  rcases hg : getHeader hs "x-change-sats" with _ | bs
  · refine ⟨?_, ?_, ?_⟩ <;>
      simp [forward_request_with_payment_with_body, Outcome.bodyStream, hg,
        producerItems_append_error, deliveredBytes_append_error]
  · have hv := hch bs hg
    refine ⟨?_, ?_, ?_⟩ <;>
      simp [forward_request_with_payment_with_body, Outcome.bodyStream, hg,
        headerValueToStr, hv, producerItems_append_error,
        deliveredBytes_append_error]

/-- Witness for C6 at a concrete input that carries a decodable
refund-amount header. -/
theorem C6_stream_error_truncates_witness :
    (strBytes "9").all isVisibleAscii = true ∧
    (let r := forward_request_with_payment_with_body []
        (some { endpoint := "http://up", api_key := "key" })
        { sendResult := fun _ => .ok { token := "tok" },
          receiveResult := fun _ => .ok { balance := "0" } }
        id none false
        (.ok { status := 200, headers := [("x-change-sats", strBytes "9")],
               chunks := ([[1], [2]] : List (List Nat)).map Except.ok
                 ++ Except.error "reset" :: [Except.ok [9]] })
     r.outcome.bodyStream
       = some (([[1], [2]] : List (List Nat)).map Except.ok
           ++ [Except.error ("Error reading from upstream: " ++ "reset")]) ∧
     r.outcome.bodyStream.map deliveredBytes
       = some ([[1], [2]] : List (List Nat)).flatten ∧
     producerItems (([[1], [2]] : List (List Nat)).map Except.ok
         ++ Except.error "reset" :: [Except.ok [9]])
       = producerItems (([[1], [2]] : List (List Nat)).map Except.ok
         ++ [Except.error "reset"])) :=
  ⟨rfl, C6_stream_error_truncates [[1], [2]] "reset" [Except.ok [9]] []
    { endpoint := "http://up", api_key := "key" } "tok"
    (fun _ => .ok { balance := "0" }) id none false 200
    [("x-change-sats", strBytes "9")]
    (fun bs h => by
      have h' : some (strBytes "9") = some bs := h
      have h2 := Option.some.inj h'
      subst h2
      rfl)⟩

/-- Claim C7, counterexample: an upstream response can carry a
refund-amount header (here with the non-visible-ASCII byte 128) for which
no `receive` call at all is made — the handler panics instead — refuting
the claim for every upstream response. -/
theorem C7_counterexample :
    getHeader [("x-change-sats", [128])] "x-change-sats" = some [128] ∧
    receiveCalls (forward_request_with_payment_with_body [] someConfig okWallet
      id none false
      (.ok { status := 200, headers := [("x-change-sats", [128])], chunks := [] })).walletCalls
      = [] ∧
    (forward_request_with_payment_with_body [] someConfig okWallet id none false
      (.ok { status := 200, headers := [("x-change-sats", [128])], chunks := [] })).outcome
      = .panicked :=
  ⟨rfl, rfl, rfl⟩

/-- Claim C7, amended: (1) if the upstream response carries a refund-amount
header whose value is visible ASCII, exactly one `receive` call is made,
with exactly that value; (2) if the header is absent, no `receive` call is
made; (3) the outcome returned to the caller (status, headers and body) is
the same whatever the wallet's `receive` operation returns — a failing
`receive` never changes it. (If the header is present but not visible
ASCII, the handler panics; see the counterexample and C10.) -/
theorem C7_change_absorption :
    (∀ (original_headers : Headers) (cfg : ServerConfig) (tok : String)
       (recv : List Nat → Except String WalletReceiveResponse)
       (endpoint_fn : String → String) (body : Option Json) (is_streaming : Bool)
       (st : Nat) (hs : Headers) (ch : List (Except String (List Nat)))
       (bs : List Nat),
       getHeader hs "x-change-sats" = some bs →
       bs.all isVisibleAscii = true →
       receiveCalls (forward_request_with_payment_with_body original_headers
         (some cfg)
         { sendResult := fun _ => .ok { token := tok }, receiveResult := recv }
         endpoint_fn body is_streaming
         (.ok { status := st, headers := hs, chunks := ch })).walletCalls = [bs]) ∧
    (∀ (original_headers : Headers) (cfg : ServerConfig) (tok : String)
       (recv : List Nat → Except String WalletReceiveResponse)
       (endpoint_fn : String → String) (body : Option Json) (is_streaming : Bool)
       (st : Nat) (hs : Headers) (ch : List (Except String (List Nat))),
       getHeader hs "x-change-sats" = none →
       receiveCalls (forward_request_with_payment_with_body original_headers
         (some cfg)
         { sendResult := fun _ => .ok { token := tok }, receiveResult := recv }
         endpoint_fn body is_streaming
         (.ok { status := st, headers := hs, chunks := ch })).walletCalls = []) ∧
    (∀ (original_headers : Headers) (config : Option ServerConfig)
       (sendR : Nat → Except String WalletSendResponse)
       (recv1 recv2 : List Nat → Except String WalletReceiveResponse)
       (endpoint_fn : String → String) (body : Option Json) (is_streaming : Bool)
       (upstream : Except String UpstreamResponse),
       (forward_request_with_payment_with_body original_headers config
         { sendResult := sendR, receiveResult := recv1 }
         endpoint_fn body is_streaming upstream).outcome
         = (forward_request_with_payment_with_body original_headers config
         { sendResult := sendR, receiveResult := recv2 }
         endpoint_fn body is_streaming upstream).outcome) := by
  refine ⟨?_, ?_, ?_⟩
  · intro oh cfg tok recv f b s st hs ch bs hch hv
    simp [forward_request_with_payment_with_body, hch, headerValueToStr, hv,
      receiveCalls]
  · intro oh cfg tok recv f b s st hs ch hch
    simp [forward_request_with_payment_with_body, hch, receiveCalls]
  · intro oh config sendR recv1 recv2 f b s up
    rcases config with _ | cfg
    · rfl
    · rcases hsr : sendR 10 with e | t
      · simp [forward_request_with_payment_with_body, hsr]
      · rcases up with err | resp
        · simp [forward_request_with_payment_with_body, hsr]
        · rcases hch : getHeader resp.headers "x-change-sats" with _ | bs
          · simp [forward_request_with_payment_with_body, hsr, hch]
          · rcases hv : headerValueToStr bs with _ | v
            · simp [forward_request_with_payment_with_body, hsr, hch, hv]
            · simp [forward_request_with_payment_with_body, hsr, hch, hv]

/-- Witness for C7 at concrete inputs (header present with a visible-ASCII
value, and header absent). -/
theorem C7_change_absorption_witness :
    getHeader [("x-change-sats", strBytes "5")] "x-change-sats"
      = some (strBytes "5") ∧
    (strBytes "5").all isVisibleAscii = true ∧
    receiveCalls (forward_request_with_payment_with_body []
      (some { endpoint := "http://up", api_key := "key" })
      { sendResult := fun _ => .ok { token := "tok" },
        receiveResult := fun _ => .error "wallet down" }
      id none false
      (.ok { status := 200, headers := [("x-change-sats", strBytes "5")],
             chunks := [] })).walletCalls = [strBytes "5"] ∧
    receiveCalls (forward_request_with_payment_with_body []
      (some { endpoint := "http://up", api_key := "key" })
      { sendResult := fun _ => .ok { token := "tok" },
        receiveResult := fun _ => .error "wallet down" }
      id none false
      (.ok { status := 200, headers := [], chunks := [] })).walletCalls = [] :=
  ⟨rfl, rfl,
   C7_change_absorption.1 [] { endpoint := "http://up", api_key := "key" } "tok"
     (fun _ => .error "wallet down") id none false 200
     [("x-change-sats", strBytes "5")] [] (strBytes "5") rfl rfl,
   C7_change_absorption.2.1 [] { endpoint := "http://up", api_key := "key" } "tok"
     (fun _ => .error "wallet down") id none false 200 [] [] rfl⟩

/-- Membership in an inserted header map: the new pair, or an old pair
under a different name. -/
theorem mem_insertHeader {acc : Headers} {n m : String} {v w : List Nat} :
    (n, v) ∈ insertHeader acc m w ↔ (n = m ∧ v = w) ∨ ((n, v) ∈ acc ∧ n ≠ m) := by
  simp only [insertHeader, List.mem_append, List.mem_filter, bne_iff_ne, ne_eq,
    List.mem_singleton, Prod.mk.injEq]
  tauto

/-- Unrolling the header-copy loop at its last step. -/
theorem copyUpstreamHeaders_append_singleton (init us : Headers)
    (p : String × List Nat) :
    copyUpstreamHeaders init (us ++ [p])
      = (if p.1 ≠ "connection" ∧ p.1 ≠ "transfer-encoding" then
          insertHeader (copyUpstreamHeaders init us) p.1 p.2
        else copyUpstreamHeaders init us) := by
  simp [copyUpstreamHeaders, List.foldl_append]

/-- `HeaderMap::get` on a reversed list, unrolled at the last element. -/
theorem getHeader_reverse_append (us : Headers) (p : String × List Nat)
    (n : String) :
    getHeader (us ++ [p]).reverse n
      = if p.1 == n then some p.2 else getHeader us.reverse n := by
  by_cases h : p.1 == n <;>
    simp [getHeader, List.reverse_append, List.find?_cons, h]

/-- An excluded header name (absent from the initial headers) never occurs
in the copied headers. -/
theorem copyUpstreamHeaders_excluded (us init : Headers) (n : String)
    (hn : n = "connection" ∨ n = "transfer-encoding")
    (hinit : ∀ w, (n, w) ∉ init) :
    ∀ v, (n, v) ∉ copyUpstreamHeaders init us := by
  induction us using List.reverseRecOn with
  | nil => exact hinit
  | append_singleton us p ih =>
    intro v hv
    rw [copyUpstreamHeaders_append_singleton] at hv
    by_cases hp : p.1 ≠ "connection" ∧ p.1 ≠ "transfer-encoding"
    · rw [if_pos hp] at hv
      rcases mem_insertHeader.mp hv with ⟨h1, _⟩ | ⟨h2, _⟩
      · rcases hn with h | h
        · exact hp.1 (h1.symm.trans h)
        · exact hp.2 (h1.symm.trans h)
      · exact ih v h2
    · rw [if_neg hp] at hv
      exact ih v hv

/-- Every non-excluded upstream header name occurs in the copied headers
with its last upstream value. -/
theorem copyUpstreamHeaders_last (us init : Headers) (n : String)
    (h1 : n ≠ "connection") (h2 : n ≠ "transfer-encoding") :
    ∀ v, getHeader us.reverse n = some v → (n, v) ∈ copyUpstreamHeaders init us := by
  induction us using List.reverseRecOn with
  | nil => intro v hv; simp [getHeader] at hv
  | append_singleton us p ih =>
    intro v hv
    rw [getHeader_reverse_append] at hv
    rw [copyUpstreamHeaders_append_singleton]
    by_cases hpn : p.1 == n
    · rw [if_pos hpn] at hv
      have hn' : p.1 = n := by simpa using hpn
      have hcond : p.1 ≠ "connection" ∧ p.1 ≠ "transfer-encoding" :=
        ⟨hn' ▸ h1, hn' ▸ h2⟩
      rw [if_pos hcond]
      exact mem_insertHeader.mpr (Or.inl ⟨hn'.symm, (Option.some.inj hv).symm⟩)
    · rw [if_neg hpn] at hv
      have hmem := ih v hv
      have hne : n ≠ p.1 := by
        intro h
        exact hpn (by simp [h])
      by_cases hcond : p.1 ≠ "connection" ∧ p.1 ≠ "transfer-encoding"
      · rw [if_pos hcond]
        exact mem_insertHeader.mpr (Or.inr ⟨hmem, hne⟩)
      · rw [if_neg hcond]
        exact hmem

/-- Claim C8, counterexample, in two parts. (1) For an upstream header
name repeated with two values, the second `insert` removes the first
value, so the forwarded headers do not contain every upstream header —
here `("set-cookie", [97])` is an upstream header, not hop-by-hop, yet
absent from the output. (2) For an upstream header set containing a
refund-amount header with a non-visible-ASCII value (byte 131), the
handler panics and forwards no headers at all — not even the ordinary
`("x-powered-by", [97])` from the same set. -/
theorem C8_counterexample :
    (("set-cookie", [97]) ∈ ([("set-cookie", [97]), ("set-cookie", [98])] : Headers) ∧
     "set-cookie" ≠ "connection" ∧
     "set-cookie" ≠ "transfer-encoding" ∧
     (forward_request_with_payment_with_body [] someConfig okWallet id none false
       (.ok { status := 200, headers := [("set-cookie", [97]), ("set-cookie", [98])],
              chunks := [] })).outcome.responseHeaders
       = [("set-cookie", [98])] ∧
     ("set-cookie", [97]) ∉ ([("set-cookie", [98])] : Headers)) ∧
    ((forward_request_with_payment_with_body [] someConfig okWallet id none false
       (.ok { status := 200,
              headers := [("x-powered-by", [97]), ("x-change-sats", [131])],
              chunks := [] })).outcome = .panicked ∧
     (forward_request_with_payment_with_body [] someConfig okWallet id none false
       (.ok { status := 200,
              headers := [("x-powered-by", [97]), ("x-change-sats", [131])],
              chunks := [] })).outcome.responseHeaders = []) := by
  refine ⟨⟨by decide, by decide, by decide, rfl, by decide⟩, rfl, rfl⟩

/-- Claim C8, amended: for every upstream header set whose refund-amount
header, when present, has a visible-ASCII value (otherwise the handler
panics and forwards no headers at all), the headers forwarded to the
caller never contain the `connection` header or the `transfer-encoding`
header, and for every other upstream header name they contain that name
with its **last** upstream value unchanged (repeated values of one name
collapse to the last, because each copy is a map `insert`). -/
theorem C8_header_filter (original_headers : Headers) (cfg : ServerConfig)
    (tok : String) (recv : List Nat → Except String WalletReceiveResponse)
    (endpoint_fn : String → String) (body : Option Json) (is_streaming : Bool)
    (st : Nat) (hs : Headers) (ch : List (Except String (List Nat)))
    (hch : ∀ bs, getHeader hs "x-change-sats" = some bs →
      bs.all isVisibleAscii = true) :
    let r := forward_request_with_payment_with_body original_headers (some cfg)
      { sendResult := fun _ => .ok { token := tok }, receiveResult := recv }
      endpoint_fn body is_streaming
      (.ok { status := st, headers := hs, chunks := ch })
    (∀ v, ("connection", v) ∉ r.outcome.responseHeaders) ∧
    (∀ v, ("transfer-encoding", v) ∉ r.outcome.responseHeaders) ∧
    (∀ n v, n ≠ "connection" → n ≠ "transfer-encoding" →
      getHeader hs.reverse n = some v → (n, v) ∈ r.outcome.responseHeaders) := by
  intro r
  have hred : r.outcome.responseHeaders
      = copyUpstreamHeaders
          (if is_streaming ∧ getHeader hs "content-type" = none then
            [("content-type", strBytes "text/event-stream")]
          else []) hs := by
    rcases hg : getHeader hs "x-change-sats" with _ | bs
    · simp [r, forward_request_with_payment_with_body, hg,
        Outcome.responseHeaders]
    · have hv := hch bs hg
      simp [r, forward_request_with_payment_with_body, hg, headerValueToStr,
        hv, Outcome.responseHeaders]
  have hinit : ∀ (n : String), n ≠ "content-type" →
      ∀ w, (n, w) ∉ (if is_streaming ∧ getHeader hs "content-type" = none then
        [("content-type", strBytes "text/event-stream")]
      else ([] : Headers)) := by
    intro n hn w hw
    split at hw <;> simp_all
  refine ⟨?_, ?_, ?_⟩
  · intro v
    rw [hred]
    exact copyUpstreamHeaders_excluded hs _ "connection" (Or.inl rfl)
      (hinit "connection" (by decide)) v
  · intro v
    rw [hred]
    exact copyUpstreamHeaders_excluded hs _ "transfer-encoding" (Or.inr rfl)
      (hinit "transfer-encoding" (by decide)) v
  · intro n v h1 h2 h3
    rw [hred]
    exact copyUpstreamHeaders_last hs _ n h1 h2 v h3

/-- Witness for C8 at a concrete input that carries a decodable
refund-amount header alongside an ordinary header. -/
theorem C8_header_filter_witness :
    (strBytes "3").all isVisibleAscii = true ∧
    ("connection", [99]) ∉
      (forward_request_with_payment_with_body []
        (some { endpoint := "http://up", api_key := "key" })
        { sendResult := fun _ => .ok { token := "tok" },
          receiveResult := fun _ => .ok { balance := "0" } }
        id none false
        (.ok { status := 200,
               headers := [("x-powered-by", [97]), ("x-change-sats", strBytes "3")],
               chunks := [] })).outcome.responseHeaders ∧
    ("x-powered-by", [97]) ∈
      (forward_request_with_payment_with_body []
        (some { endpoint := "http://up", api_key := "key" })
        { sendResult := fun _ => .ok { token := "tok" },
          receiveResult := fun _ => .ok { balance := "0" } }
        id none false
        (.ok { status := 200,
               headers := [("x-powered-by", [97]), ("x-change-sats", strBytes "3")],
               chunks := [] })).outcome.responseHeaders :=
  ⟨rfl,
   (C8_header_filter [] { endpoint := "http://up", api_key := "key" } "tok"
     (fun _ => .ok { balance := "0" }) id none false 200
     [("x-powered-by", [97]), ("x-change-sats", strBytes "3")] []
     (fun bs h => by
       have h' : some (strBytes "3") = some bs := h
       have h2 := Option.some.inj h'
       subst h2
       rfl)).1 [99],
   (C8_header_filter [] { endpoint := "http://up", api_key := "key" } "tok"
     (fun _ => .ok { balance := "0" }) id none false 200
     [("x-powered-by", [97]), ("x-change-sats", strBytes "3")] []
     (fun bs h => by
       have h' : some (strBytes "3") = some bs := h
       have h2 := Option.some.inj h'
       subst h2
       rfl)).2.2 "x-powered-by" [97] (by decide) (by decide) rfl⟩

/-- Whenever the request builder runs (configuration resolved), the chosen
method is `POST` iff a body is supplied, `GET` otherwise. -/
theorem builtMethod_eq (original_headers : Headers) (cfg : ServerConfig)
    (wallet : CashuWalletClient) (endpoint_fn : String → String)
    (body : Option Json) (is_streaming : Bool)
    (upstream : Except String UpstreamResponse) :
    (forward_request_with_payment_with_body original_headers (some cfg) wallet
      endpoint_fn body is_streaming upstream).builtMethod
      = some (if body.isSome then Method.POST else Method.GET) := by
  rcases hsr : wallet.sendResult 10 with e | t
  · simp [forward_request_with_payment_with_body, hsr]
  · rcases upstream with err | resp
    · simp [forward_request_with_payment_with_body, hsr]
    · rcases hch : getHeader resp.headers "x-change-sats" with _ | bs
      · simp [forward_request_with_payment_with_body, hsr, hch]
      · rcases hv : headerValueToStr bs with _ | v <;>
          simp [forward_request_with_payment_with_body, hsr, hch, hv]

/-- Claim C9: for every forwarded request, the outbound method is
determined solely by body presence — a body gives `POST`, no body gives
`GET` — and accordingly every operation entry point with a body (chat
completion, embeddings, image generation) builds a `POST` while the
bodyless ones (model listing, model lookup) build a `GET`, regardless of
the operation. -/
theorem C9_method_from_body_presence (original_headers : Headers)
    (cfg : ServerConfig) (wallet : CashuWalletClient)
    (endpoint_fn : String → String) (body : Option Json) (is_streaming : Bool)
    (upstream : Except String UpstreamResponse)
    (req : ChatCompletionRequest) (reqJson : Json) (model_id : String) :
    ((forward_request_with_payment_with_body original_headers (some cfg) wallet
        endpoint_fn body is_streaming upstream).builtMethod
      = some (if body.isSome then Method.POST else Method.GET)) ∧
    ((forward_chat_completions req original_headers (some cfg) wallet
        upstream).builtMethod = some Method.POST) ∧
    ((forward_embeddings reqJson original_headers (some cfg) wallet
        upstream).builtMethod = some Method.POST) ∧
    ((forward_image_generations reqJson original_headers (some cfg) wallet
        upstream).builtMethod = some Method.POST) ∧
    ((forward_list_models original_headers (some cfg) wallet
        upstream).builtMethod = some Method.GET) ∧
    ((get_specific_model model_id original_headers (some cfg) wallet
        upstream).builtMethod = some Method.GET) := by
  refine ⟨builtMethod_eq _ _ _ _ _ _ _, ?_, ?_, ?_, ?_, ?_⟩ <;>
    simp [forward_chat_completions, forward_embeddings,
      forward_image_generations, forward_list_models, get_specific_model,
      forward_request_with_payment, builtMethod_eq]

/-- Claim C10: the handler is not total — an upstream response carrying an
`X-CHANGE-SATS` header whose value has a byte that is not visible ASCII
(here the byte 200) makes the change-absorption step panic (`to_str`
fails, and its result is unwrapped) instead of returning a response. -/
theorem C10_change_header_panics :
    headerValueToStr [200] = none ∧
    (forward_request_with_payment_with_body [] someConfig okWallet id none false
      (.ok { status := 200, headers := [("x-change-sats", [200])], chunks := [] })).outcome
      = .panicked :=
  ⟨rfl, rfl⟩

end Forward
